import Mathlib

/-!
Shallow embedding of the gemini-proxy repository: a Deno HTTP reverse proxy
between a chat client and the Gemini generative-AI API.  The embedding covers
the SDK-based handler of src/main.ts (route dispatch, model extraction,
credential extraction, streaming SSE relay, JSON error envelopes), the
safety-check and try/catch streaming variants of src/unnamed/part_000 and
src/unnamed/part_001, and the generic multi-key proxy plus OpenAI
compatibility mapping of src/unnamed/part_001.
-/

/-- Model of a JSON value as produced by JSON.parse / consumed by
JSON.stringify.  Numbers are modelled as integers (the proxy never produces
fractional numbers itself; chunk payloads are opaque). -/
inductive Json where
  | null
  | bool (b : Bool)
  | num (n : Int)
  | str (s : String)
  | arr (xs : List Json)
  | obj (kvs : List (String × Json))

/-- Escape of one character inside a JSON string literal, as JSON.stringify
performs it for the common characters. -/
def jsonEscapeChar (c : Char) : String :=
  if c = '"' then "\\\""
  else if c = '\\' then "\\\\"
  else if c = '\n' then "\\n"
  else if c = '\r' then "\\r"
  else if c = '\t' then "\\t"
  else String.mk [c]

/-- Quote a string as a JSON string literal. -/
def jsonQuote (s : String) : String :=
  "\"" ++ String.join (s.toList.map jsonEscapeChar) ++ "\""

mutual

/-- Model of JSON.stringify on the Json model. -/
def Json.stringify : Json → String
  | .null => "null"
  | .bool true => "true"
  | .bool false => "false"
  | .num n => toString n
  | .str s => jsonQuote s
  | .arr xs => "[" ++ String.intercalate "," (stringifyList xs) ++ "]"
  | .obj kvs => "\x7b" ++ String.intercalate "," (stringifyPairs kvs) ++ "\x7d"

/-- Serialization of each element of a JSON array. -/
def stringifyList : List Json → List String
  | [] => []
  | j :: js => Json.stringify j :: stringifyList js

/-- Serialization of each key/value pair of a JSON object. -/
def stringifyPairs : List (String × Json) → List String
  | [] => []
  | (k, v) :: rest => (jsonQuote k ++ ":" ++ Json.stringify v) :: stringifyPairs rest

end

/-- Substring test on character lists: JavaScript String.prototype.includes. -/
def listIncludes (needle : List Char) : List Char → Bool
  | [] => needle.isEmpty
  | c :: cs => needle.isPrefixOf (c :: cs) || listIncludes needle cs

/-- JavaScript `hay.includes(needle)`. -/
def strIncludes (hay needle : String) : Bool :=
  listIncludes needle.toList hay.toList

/-- JavaScript `s.startsWith(p)` (ASCII prefixes only are used). -/
def strStartsWith (s p : String) : Bool :=
  p.toList.isPrefixOf s.toList

/-- JavaScript `s.substring(n)` for ASCII strings. -/
def strDropN (s : String) (n : Nat) : String :=
  String.mk (s.toList.drop n)

/-- Model of JavaScript `s.toLowerCase()` for the ASCII header values used
here. -/
def strToLower (s : String) : String :=
  String.mk (s.toList.map Char.toLower)

/-- Whitespace test used by the JavaScript trim model. -/
def isJsWhitespace (c : Char) : Bool :=
  c = ' ' || c = '\t' || c = '\n' || c = '\r'

/-- Model of JavaScript `s.trim()`: leading and trailing whitespace removed. -/
def strTrim (s : String) : String :=
  String.mk (((s.toList.dropWhile isJsWhitespace).reverse.dropWhile isJsWhitespace).reverse)

/-- Scan to the first colon: the characters before the first `:` of the list,
failing on a newline (the regex `.` does not match a newline) or at the end
of input.  Used to model the lazy group of the regex `models\/(.+?):`. -/
def firstToColon : List Char → Option (List Char)
  | [] => none
  | c :: cs =>
    if c = ':' then some []
    else if c = '\n' then none
    else (firstToColon cs).map (fun t => c :: t)

/-- Lazy capture of `(.+?):` starting at the given characters: at least one
non-newline character, then the shortest continuation up to a colon. -/
def lazyCapture : List Char → Option (List Char)
  | [] => none
  | c :: cs => if c = '\n' then none else (firstToColon cs).map (fun t => c :: t)

/-- Attempt of the regex `models\/(.+?):` anchored at the current position. -/
def matchAt : List Char → Option (List Char)
  | 'm' :: 'o' :: 'd' :: 'e' :: 'l' :: 's' :: '/' :: rest => lazyCapture rest
  | _ => none

/-- Leftmost match of the regex `models\/(.+?):`, trying each start position
from the left as a backtracking engine does. -/
def findMatch : List Char → Option (List Char)
  | [] => none
  | c :: cs =>
    match matchAt (c :: cs) with
    | some cap => some cap
    | none => findMatch cs

/-- Model of `pathname.match(/models\/(.+?):/)`, returning the first capture
group: the shortest run of characters between the first viable `models/` and
the following colon. -/
def modelExtract (p : String) : Option String :=
  (findMatch p.toList).map (fun l => String.mk l)

/-- Event observable on the client-side ReadableStream built by the streaming
branches: an enqueued text payload, a clean close, or a stream error raised
through the controller. -/
inductive StreamEvent where
  | chunk (payload : String)
  | close
  | errored
deriving DecidableEq, Repr

/-- Result of one handler invocation: a buffered JSON response, a streamed
response described by its event sequence, or an empty 204 response. -/
inductive HandlerResult where
  | jsonResponse (status : Nat) (body : Json)
  | streamResponse (status : Nat) (events : List StreamEvent)
  | noContent (status : Nat)

/-- HTTP status code of a handler result. -/
def HandlerResult.statusCode : HandlerResult → Nat
  | .jsonResponse s _ => s
  | .streamResponse s _ => s
  | .noContent s => s

/-- The JSON error envelope built by createJsonErrorResponse in the SDK
variants: an object with a single error field holding code, message and
status, in that order. -/
def errorEnvelope (code : Nat) (message status : String) : Json :=
  .obj [("error", .obj [("code", .num (Int.ofNat code)),
                        ("message", .str message),
                        ("status", .str status)])]

/-- Model of createJsonErrorResponse (src/main.ts lines 11-28): a JSON
response whose HTTP status equals the code field of the envelope. -/
def createJsonErrorResponse (message : String) (statusCode : Nat) (statusText : String) : HandlerResult :=
  .jsonResponse statusCode (errorEnvelope statusCode message statusText)

/-- Decides whether a JSON body is an error envelope whose code field equals
the given HTTP status. -/
def isErrorEnvelopeB (code : Nat) : Json → Bool
  | .obj [("error", .obj [("code", .num c), ("message", .str _), ("status", .str _)])] =>
      c == Int.ofNat code
  | _ => false

/-- Model of the API-key extraction of src/main.ts lines 78-84: the bearer
token of the Authorization header if that header starts with the literal
prefix, else the x-goog-api-key header, else the empty string.  An absent
header and an empty header behave alike, as both are falsy in JavaScript. -/
def extractApiKey (authorization xGoogApiKey : Option String) : String :=
  let a := authorization.getD ""
  if strStartsWith a "Bearer " then strDropN a 7 else xGoogApiKey.getD ""

/-- Message for the catch-all error path, modelling
`error.message || "An unknown error occurred"`. -/
def catchAllMsg (e : String) : String :=
  if e = "" then "An unknown error occurred" else e

/-- SSE frame built for one upstream chunk: the literal `data: `, the JSON
serialization of the chunk, then two newlines. -/
def sseFrame (j : Json) : String :=
  "data: " ++ j.stringify ++ "\n\n"

/-- Events of the client stream for a finite upstream chunk sequence: one SSE
frame per chunk, in order, then a clean close. -/
def sseEvents (chunks : List Json) : List StreamEvent :=
  chunks.map (fun c => .chunk (sseFrame c)) ++ [.close]

/-- Behaviour of the upstream SDK during one request, as the handler can
observe it.  For the streaming call, an error value models a thrown await;
`Except.ok none` models a returned result whose `stream` field is absent or
not iterable; `Except.ok (some chunks)` models a result whose stream yields
the listed JSON chunks and then ends. -/
structure GenUpstream where
  streamResult : Except String (Option (List Json))
  unaryResult : Except String Json

/-- Inbound request as src/main.ts reads it: method, URL pathname, the two
credential headers, and the result of `await req.json()` (an error value
models a body that JSON.parse rejects, carrying the exception message). -/
structure MainRequest where
  method : String
  pathname : String
  authorization : Option String
  xGoogApiKey : Option String
  body : Except String Json

/-- Model of the request handler of src/main.ts (lines 33-179): CORS
preflight, route dispatch on the two operation markers, model-name
extraction, body parse, API-key extraction, then the streaming or unary
upstream call, with the catch-all converting thrown errors to 500. -/
def mainHandler (up : GenUpstream) (req : MainRequest) : HandlerResult :=
  if req.method = "OPTIONS" then .noContent 204
  else if req.method ≠ "POST" ∨
      (strIncludes req.pathname ":streamGenerateContent" = false ∧
       strIncludes req.pathname ":generateContent" = false) then
    createJsonErrorResponse "Endpoint not found." 404 "NOT_FOUND"
  else
    match modelExtract req.pathname with
    | none =>
        createJsonErrorResponse ("Could not extract model name from path: " ++ req.pathname)
          400 "INVALID_ARGUMENT"
    | some _ =>
      match req.body with
      | .error e => createJsonErrorResponse (catchAllMsg e) 500 "INTERNAL"
      | .ok _ =>
        if extractApiKey req.authorization req.xGoogApiKey = "" then
          createJsonErrorResponse "API key is missing from headers." 401 "UNAUTHENTICATED"
        else if strIncludes req.pathname ":streamGenerateContent" = true then
          match up.streamResult with
          | .error e => createJsonErrorResponse (catchAllMsg e) 500 "INTERNAL"
          | .ok none => .streamResponse 200 [.errored]
          | .ok (some chunks) => .streamResponse 200 (sseEvents chunks)
        else
          match up.unaryResult with
          | .error e => createJsonErrorResponse (catchAllMsg e) 500 "INTERNAL"
          | .ok payload => .jsonResponse 200 payload

/-- Error message of the stream safety check of src/unnamed/part_000
lines 99-103. -/
def safetyCheckMsg : String :=
  "Failed to get a valid stream from Google API. Check the server logs for the full response from Google."

/-- Model of the streaming branch of the safety-check variant
(src/unnamed/part_000 lines 77-127): if the stream result is falsy or its
stream field is absent, a 502 BAD_GATEWAY JSON error is returned before any
stream is created; otherwise the chunks are relayed as SSE frames. -/
def safetyVariantStreamBranch : Option (Option (List Json)) → HandlerResult
  | none => createJsonErrorResponse safetyCheckMsg 502 "BAD_GATEWAY"
  | some none => createJsonErrorResponse safetyCheckMsg 502 "BAD_GATEWAY"
  | some (some chunks) => .streamResponse 200 (sseEvents chunks)

/-- Model of the streaming branch of the try/catch variant
(src/unnamed/part_001 lines 56-84): a thrown upstream call is converted to a
502 BAD_GATEWAY; a returned result is relayed, and a result whose stream
field is absent makes the iteration inside the ReadableStream start callback
throw, erroring the already-returned 200 response stream. -/
def tryCatchVariantStreamBranch : Except String (Option (List Json)) → HandlerResult
  | .error e => createJsonErrorResponse ("Failed to call Google API: " ++ e) 502 "BAD_GATEWAY"
  | .ok none => .streamResponse 200 [.errored]
  | .ok (some chunks) => .streamResponse 200 (sseEvents chunks)

/-- Counts the SSE data frames among the events of a client stream. -/
def countDataFrames (events : List StreamEvent) : Nat :=
  (events.filter (fun e => match e with | .chunk _ => true | _ => false)).length

/-- An upstream whose streaming call yields no chunks and whose unary call
returns null, used to instantiate handler theorems at concrete inputs. -/
def trivialUpstream : GenUpstream :=
  { streamResult := .ok (some []), unaryResult := .ok .null }

/-- Case-insensitive header lookup, as Headers.prototype.get performs it. -/
def headerGet (hs : List (String × String)) (name : String) : Option String :=
  (hs.find? (fun p => strToLower p.fst == strToLower name)).map (fun p => p.snd)

/-- First value of a query parameter, as URLSearchParams.get returns it. -/
def paramGet (ps : List (String × String)) (name : String) : Option String :=
  (ps.find? (fun p => p.fst == name)).map (fun p => p.snd)

/-- URLSearchParams.delete: removes every pair with the given name. -/
def deleteParam (ps : List (String × String)) (name : String) : List (String × String) :=
  ps.filter (fun p => p.fst != name)

/-- Configuration of the generic multi-key proxy (src/unnamed/part_001
lines 112-126): the gate credential from env `key` and the comma-split pool
of upstream credentials from env `apikey`. -/
structure ProxyConfig where
  authKey : Option String
  apiKeys : List String

/-- Inbound request as the generic proxy reads it: method, pathname, the full
header list, the query parameters, and the raw body bytes. -/
structure ProxyRequest where
  method : String
  pathname : String
  headers : List (String × String)
  queryParams : List (String × String)
  bodyBytes : List Nat

/-- Model of the client-key extraction of src/unnamed/part_001
lines 368-409: x-goog-api-key first, then the Authorization header (bearer
token if prefixed case-insensitively by `bearer `, else the raw value), then
x-api-key, then the `key` query parameter; each candidate is trimmed, and
the first non-empty one wins. -/
def extractClientKey (req : ProxyRequest) : String :=
  let k1 := strTrim ((headerGet req.headers "x-goog-api-key").getD "")
  let k2 :=
    match headerGet req.headers "Authorization" with
    | none => ""
    | some a =>
      if strStartsWith (strToLower a) "bearer " then strTrim (strDropN a 7) else strTrim a
  let k3 := strTrim ((headerGet req.headers "x-api-key").getD "")
  let k4 := strTrim ((paramGet req.queryParams "key").getD "")
  if k1 ≠ "" then k1 else if k2 ≠ "" then k2 else if k3 ≠ "" then k3 else k4

/-- Allow-list of headers forwarded upstream (src/unnamed/part_001
lines 464-471). -/
def headersToForward : List String :=
  ["Content-Type", "Accept", "User-Agent", "Accept-Language", "Accept-Encoding",
   "x-goog-api-client"]

/-- Forwarded header construction (src/unnamed/part_001 lines 473-478): only
allow-listed headers present on the inbound request are copied. -/
def buildForwardHeaders (reqHeaders : List (String × String)) : List (String × String) :=
  headersToForward.filterMap (fun h => (headerGet reqHeaders h).map (fun v => (h, v)))

/-- Outbound request the generic proxy sends to the upstream API. -/
structure OutboundRequest where
  method : String
  path : String
  params : List (String × String)
  headers : List (String × String)
  bodyBytes : Option (List Nat)

/-- Outcome of the generic proxy gate: either an immediate JSON response, or
the outbound request forwarded to the upstream. -/
inductive ProxyStep where
  | respond (status : Nat) (body : Json)
  | forward (out : OutboundRequest)

/-- Model of the Gemini relay branch of the generic multi-key proxy
(src/unnamed/part_001 lines 346-493): environment check, client-key
extraction and validation against the gate credential, random pool-key
selection (the random draw modelled by the index argument, reduced modulo
the pool size as Math.floor(Math.random()*length) always lands in range),
replacement of the `key` query parameter, and allow-listed header
forwarding.  The relay of the upstream's response is outside this model. -/
def proxyHandlerRelay (cfg : ProxyConfig) (req : ProxyRequest) (randIdx : Nat) : ProxyStep :=
  if cfg.authKey.getD "" = "" ∨ cfg.apiKeys = [] then
    .respond 500 (.obj [("error", .str "服务器配置错误"),
      ("details", .obj [("auth_key_configured", .bool (cfg.authKey.getD "" ≠ "")),
                        ("api_keys_count", .num (Int.ofNat cfg.apiKeys.length))])])
  else
    let clientKey := extractClientKey req
    if clientKey = "" then
      .respond 401 (.obj [("error", .str "认证失败：未提供API密钥"),
        ("hint", .str "请在 x-goog-api-key 或 Authorization header 中提供密钥")])
    else if clientKey ≠ cfg.authKey.getD "" then
      .respond 401 (.obj [("error", .str "认证失败：API密钥无效")])
    else
      let selected := cfg.apiKeys.getD (randIdx % cfg.apiKeys.length) ""
      .forward
        { method := req.method
        , path := req.pathname
        , params := deleteParam req.queryParams "key" ++ [("key", selected)]
        , headers := buildForwardHeaders req.headers
        , bodyBytes := if req.method ≠ "GET" ∧ req.method ≠ "HEAD"
                       then some req.bodyBytes else none }

/-- The OpenAI-to-Gemini model lookup table (src/unnamed/part_001
lines 155-161). -/
def OPENAI_TO_GEMINI : List (String × String) :=
  [("gpt-3.5-turbo", "gemini-pro"),
   ("gpt-4", "gemini-1.5-pro"),
   ("gemini-pro", "gemini-pro"),
   ("gemini-1.5-pro", "gemini-1.5-pro"),
   ("gemini-1.5-flash", "gemini-1.5-flash")]

/-- Lookup of an OpenAI model name in the mapping table. -/
def lookupOpenAIModel (m : String) : Option String :=
  (OPENAI_TO_GEMINI.find? (fun p => p.fst == m)).map (fun p => p.snd)

/-- Model of `OPENAI_TO_GEMINI[openaiModel] || "gemini-pro"`
(src/unnamed/part_001 line 270): table lookup with a default fallback. -/
def resolveGeminiModel (m : String) : String :=
  (lookupOpenAIModel m).getD "gemini-pro"

/-- One OpenAI chat message. -/
structure ChatMessage where
  role : String
  content : String
deriving DecidableEq, Repr

/-- One part of a Gemini content entry. -/
structure GeminiPart where
  text : String
deriving DecidableEq, Repr

/-- One Gemini content entry. -/
structure GeminiContent where
  role : String
  parts : List GeminiPart
deriving DecidableEq, Repr

/-- Model of convertMessagesToGemini (src/unnamed/part_001 lines 169-178):
each message keeps role `user` when its role is `user` and becomes role
`model` otherwise, with the content wrapped as a single text part. -/
def convertMessagesToGemini (messages : List ChatMessage) : List GeminiContent :=
  messages.map (fun msg =>
    { role := if msg.role = "user" then "user" else "model"
    , parts := [{ text := msg.content }] })

/-- Helper: scanning to the first colon over a list that is a colon-free,
newline-free block followed by a colon returns exactly that block. -/
theorem firstToColon_append (m rest : List Char) (hc : ':' ∉ m) (hn : '\n' ∉ m) :
    firstToColon (m ++ ':' :: rest) = some m := by
  induction m with
  | nil => simp [firstToColon]
  | cons c cs ih =>
    have hc1 : c ≠ ':' := fun h => hc (h ▸ List.mem_cons_self c cs)
    have hn1 : c ≠ '\n' := fun h => hn (h ▸ List.mem_cons_self c cs)
    have hc2 : ':' ∉ cs := fun h => hc (List.mem_cons_of_mem c h)
    have hn2 : '\n' ∉ cs := fun h => hn (List.mem_cons_of_mem c h)
    simp [firstToColon, hc1, hn1, ih hc2 hn2]

/-- Claim C6: the model-identifier extraction on the path segment
`models/foo-bar:generateContent` yields exactly `foo-bar`, and in general,
for a path of the form `models/` followed by a non-empty, colon-free,
newline-free name, a colon, and anything after, the extraction yields
exactly that name — the shortest substring between `models/` and the
following colon. -/
theorem c6_model_extraction :
    modelExtract "models/foo-bar:generateContent" = some "foo-bar" ∧
    (∀ (m rest : List Char), m ≠ [] → ':' ∉ m → '\n' ∉ m →
      modelExtract (String.mk ("models/".toList ++ m ++ ':' :: rest)) = some (String.mk m)) := by
  constructor
  · decide
  · intro m rest hne hc hn
    obtain ⟨c, m', rfl⟩ := List.exists_cons_of_ne_nil hne
    have hn1 : c ≠ '\n' := fun h => hn (h ▸ List.mem_cons_self c m')
    have hc2 : ':' ∉ m' := fun h => hc (List.mem_cons_of_mem c h)
    have hn2 : '\n' ∉ m' := fun h => hn (List.mem_cons_of_mem c h)
    show (findMatch _).map _ = _
    have hl : "models/".toList ++ (c :: m') ++ ':' :: rest =
        'm' :: 'o' :: 'd' :: 'e' :: 'l' :: 's' :: '/' :: (c :: (m' ++ ':' :: rest)) := by
      rfl
    rw [congrArg String.mk hl]
    simp [findMatch, matchAt, lazyCapture, hn1, firstToColon_append m' rest hc2 hn2]

/-- Witness for C6: the general extraction statement evaluated at the
concrete name `ab` and suffix `x`. -/
theorem c6_witness :
    modelExtract (String.mk ("models/".toList ++ ['a','b'] ++ ':' :: ['x'])) =
      some (String.mk ['a','b']) :=
  c6_model_extraction.2 ['a','b'] ['x'] (by decide) (by decide) (by decide)

/-- Claim C1: on the streaming route, for a finite upstream stream of N JSON
chunks the handler's response stream emits exactly N SSE frames, the i-th
being `data: ` followed by the JSON serialization of the i-th chunk and two
newlines, in upstream order, followed by a clean close — no frame dropped,
duplicated or reordered. -/
theorem c1_streaming_relay (up : GenUpstream) (req : MainRequest) (chunks : List Json)
    (mname : String)
    (h1 : req.method = "POST")
    (h2 : strIncludes req.pathname ":streamGenerateContent" = true)
    (h3 : modelExtract req.pathname = some mname)
    (h4 : ∃ j, req.body = .ok j)
    (h5 : extractApiKey req.authorization req.xGoogApiKey ≠ "")
    (h6 : up.streamResult = .ok (some chunks)) :
    mainHandler up req =
      .streamResponse 200
        (chunks.map (fun c => .chunk ("data: " ++ c.stringify ++ "\n\n")) ++ [.close]) := by
  obtain ⟨j, h4⟩ := h4
  have hm : req.method ≠ "OPTIONS" := by rw [h1]; decide
  simp [mainHandler, hm, h1, h2, h3, h4, h5, h6, sseEvents, sseFrame]

/-- Witness for C1: a concrete streaming request relaying two chunks. -/
theorem c1_witness :
    mainHandler ⟨.ok (some [.null, .str "a"]), .ok .null⟩
      { method := "POST", pathname := "/v1/models/m:streamGenerateContent"
      , authorization := some "Bearer k", xGoogApiKey := none, body := .ok .null } =
      .streamResponse 200
        ([Json.null, Json.str "a"].map (fun c => .chunk ("data: " ++ c.stringify ++ "\n\n")) ++
          [.close]) :=
  c1_streaming_relay ⟨.ok (some [.null, .str "a"]), .ok .null⟩
    { method := "POST", pathname := "/v1/models/m:streamGenerateContent"
    , authorization := some "Bearer k", xGoogApiKey := none, body := .ok .null }
    [.null, .str "a"] "m" rfl (by decide) (by decide) ⟨.null, rfl⟩ (by decide) rfl

/-- Claim C2 (amended): a POST whose path contains neither operation marker
gets 404 NOT_FOUND, while a POST whose path contains a marker but from which
no model name is extractable gets 400 INVALID_ARGUMENT, not 404. -/
theorem c2_amended_dispatch (up : GenUpstream) (req : MainRequest)
    (h1 : req.method = "POST") :
    (strIncludes req.pathname ":streamGenerateContent" = false →
     strIncludes req.pathname ":generateContent" = false →
     mainHandler up req = createJsonErrorResponse "Endpoint not found." 404 "NOT_FOUND") ∧
    ((strIncludes req.pathname ":streamGenerateContent" = true ∨
      strIncludes req.pathname ":generateContent" = true) →
     modelExtract req.pathname = none →
     mainHandler up req =
       createJsonErrorResponse ("Could not extract model name from path: " ++ req.pathname)
         400 "INVALID_ARGUMENT") := by
  have hm : req.method ≠ "OPTIONS" := by rw [h1]; decide
  constructor
  · intro h2 h3
    simp [mainHandler, hm, h1, h2, h3]
  · intro h2 h3
    rcases h2 with h2 | h2 <;> simp [mainHandler, hm, h1, h2, h3]

/-- Witness for C2: a POST to a path without either marker gets the 404
NOT_FOUND envelope. -/
theorem c2_witness :
    mainHandler trivialUpstream
      { method := "POST", pathname := "/v1/some/other/route"
      , authorization := none, xGoogApiKey := none, body := .ok .null } =
      createJsonErrorResponse "Endpoint not found." 404 "NOT_FOUND" :=
  (c2_amended_dispatch trivialUpstream
    { method := "POST", pathname := "/v1/some/other/route"
    , authorization := none, xGoogApiKey := none, body := .ok .null } rfl).1
    (by decide) (by decide)

/-- Counterexample for C2 as stated: the POST path `/foo:generateContent`
does not match the `models/{x}:generateContent` shape (no model name is
extractable), yet the handler answers 400 INVALID_ARGUMENT, not 404
NOT_FOUND. -/
theorem c2_counterexample :
    modelExtract "/foo:generateContent" = none ∧
    mainHandler trivialUpstream
      { method := "POST", pathname := "/foo:generateContent"
      , authorization := some "Bearer k", xGoogApiKey := none, body := .ok .null } =
      createJsonErrorResponse ("Could not extract model name from path: " ++ "/foo:generateContent")
        400 "INVALID_ARGUMENT" ∧
    (mainHandler trivialUpstream
      { method := "POST", pathname := "/foo:generateContent"
      , authorization := some "Bearer k", xGoogApiKey := none, body := .ok .null }).statusCode = 400 ∧
    (400 : Nat) ≠ 404 := by
  refine ⟨rfl, rfl, rfl, by decide⟩

/-- Claim C9: the body is parsed before the credential is checked — for any
POST to a matching generation route whose body fails JSON parsing, the
handler answers 500 INTERNAL through the catch-all, whatever the credential
headers hold (in particular when none is supplied). -/
theorem c9_body_parse_before_credential (up : GenUpstream) (req : MainRequest) (mname e : String)
    (h1 : req.method = "POST")
    (h2 : strIncludes req.pathname ":streamGenerateContent" = true ∨
          strIncludes req.pathname ":generateContent" = true)
    (h3 : modelExtract req.pathname = some mname)
    (h4 : req.body = .error e) :
    mainHandler up req = createJsonErrorResponse (catchAllMsg e) 500 "INTERNAL" := by
  have hm : req.method ≠ "OPTIONS" := by rw [h1]; decide
  rcases h2 with h2 | h2 <;> simp [mainHandler, hm, h1, h2, h3, h4]

/-- Witness for C9: a malformed body with no credential headers yields the
500 INTERNAL envelope, not 401. -/
theorem c9_witness :
    mainHandler trivialUpstream
      { method := "POST", pathname := "/v1/models/m:generateContent"
      , authorization := none, xGoogApiKey := none, body := .error "Unexpected token" } =
      createJsonErrorResponse (catchAllMsg "Unexpected token") 500 "INTERNAL" :=
  c9_body_parse_before_credential trivialUpstream
    { method := "POST", pathname := "/v1/models/m:generateContent"
    , authorization := none, xGoogApiKey := none, body := .error "Unexpected token" }
    "m" "Unexpected token" rfl (Or.inr (by decide)) (by decide) rfl

/-- Claim C5 (amended): a POST to a matching generation route whose body
parses as JSON and that carries neither an Authorization header usable as a
bearer credential nor an x-goog-api-key header yields 401 UNAUTHENTICATED. -/
theorem c5_missing_credential (up : GenUpstream) (req : MainRequest) (mname : String)
    (h1 : req.method = "POST")
    (h2 : strIncludes req.pathname ":streamGenerateContent" = true ∨
          strIncludes req.pathname ":generateContent" = true)
    (h3 : modelExtract req.pathname = some mname)
    (h4 : ∃ j, req.body = .ok j)
    (h5 : req.authorization = none)
    (h6 : req.xGoogApiKey = none) :
    mainHandler up req =
      createJsonErrorResponse "API key is missing from headers." 401 "UNAUTHENTICATED" := by
  obtain ⟨j, h4⟩ := h4
  have hm : req.method ≠ "OPTIONS" := by rw [h1]; decide
  have hk : extractApiKey req.authorization req.xGoogApiKey = "" := by
    rw [h5, h6]; decide
  rcases h2 with h2 | h2 <;> simp [mainHandler, hm, h1, h2, h3, h4, hk]

/-- Witness for C5: a credential-less POST with a well-formed body gets the
401 UNAUTHENTICATED envelope. -/
theorem c5_witness :
    mainHandler trivialUpstream
      { method := "POST", pathname := "/v1/models/m:generateContent"
      , authorization := none, xGoogApiKey := none, body := .ok .null } =
      createJsonErrorResponse "API key is missing from headers." 401 "UNAUTHENTICATED" :=
  c5_missing_credential trivialUpstream
    { method := "POST", pathname := "/v1/models/m:generateContent"
    , authorization := none, xGoogApiKey := none, body := .ok .null }
    "m" rfl (Or.inr (by decide)) (by decide) ⟨.null, rfl⟩ rfl rfl

/-- Counterexample for C5 as stated: a credential-less POST to a matching
route whose body fails JSON parsing is answered 500 INTERNAL, not 401. -/
theorem c5_counterexample :
    mainHandler trivialUpstream
      { method := "POST", pathname := "/v1/models/m:generateContent"
      , authorization := none, xGoogApiKey := none
      , body := .error "Unexpected end of JSON input" } =
      createJsonErrorResponse "Unexpected end of JSON input" 500 "INTERNAL" ∧
    (mainHandler trivialUpstream
      { method := "POST", pathname := "/v1/models/m:generateContent"
      , authorization := none, xGoogApiKey := none
      , body := .error "Unexpected end of JSON input" }).statusCode = 500 ∧
    (500 : Nat) ≠ 401 := by
  refine ⟨rfl, rfl, by decide⟩

/-- Claim C3 (amended): the SDK variant tries the Authorization bearer token
first and x-goog-api-key second, so the bearer token wins when both are
present; the generic-proxy variant instead tries x-goog-api-key first, then
the Authorization header (bearer or raw), then x-api-key, then the `key`
query parameter, each trimmed, returning the first non-empty candidate. -/
theorem c3_amended_precedence :
    (∀ (a : String) (g : Option String), strStartsWith a "Bearer " = true →
       extractApiKey (some a) g = strDropN a 7) ∧
    (∀ (a g : String), strStartsWith a "Bearer " = false →
       extractApiKey (some a) (some g) = g) ∧
    (∀ (req : ProxyRequest) (g : String), headerGet req.headers "x-goog-api-key" = some g →
       strTrim g ≠ "" → extractClientKey req = strTrim g) ∧
    (∀ (req : ProxyRequest) (a : String),
       headerGet req.headers "x-goog-api-key" = none →
       headerGet req.headers "Authorization" = some a →
       strStartsWith (strToLower a) "bearer " = true →
       strTrim (strDropN a 7) ≠ "" →
       extractClientKey req = strTrim (strDropN a 7)) ∧
    (∀ (req : ProxyRequest) (x : String),
       headerGet req.headers "x-goog-api-key" = none →
       headerGet req.headers "Authorization" = none →
       headerGet req.headers "x-api-key" = some x →
       strTrim x ≠ "" → extractClientKey req = strTrim x) ∧
    (∀ (req : ProxyRequest) (u : String),
       headerGet req.headers "x-goog-api-key" = none →
       headerGet req.headers "Authorization" = none →
       headerGet req.headers "x-api-key" = none →
       paramGet req.queryParams "key" = some u →
       extractClientKey req = strTrim u) := by
  have htrim : strTrim "" = "" := rfl
  refine ⟨?_, ?_, ?_, ?_, ?_, ?_⟩
  · intro a g h; simp [extractApiKey, h]
  · intro a g h; simp [extractApiKey, h]
  · intro req g h1 h2; simp [extractClientKey, h1, h2]
  · intro req a h1 h2 h3 h4
    simp [extractClientKey, h1, h2, h3, h4, htrim]
  · intro req x h1 h2 h3 h4
    simp [extractClientKey, h1, h2, h3, h4, htrim]
  · intro req u h1 h2 h3 h4
    simp [extractClientKey, h1, h2, h3, h4, htrim]

/-- Counterexample for C3 as stated: in the generic-proxy variant, with both
an Authorization bearer token and an x-goog-api-key header present, the
credential used is the x-goog-api-key value, not the bearer token. -/
theorem c3_counterexample :
    extractClientKey
      { method := "POST", pathname := "/v1/models/m:generateContent"
      , headers := [("x-goog-api-key", "gkey"), ("Authorization", "Bearer btok")]
      , queryParams := [], bodyBytes := [] } = "gkey" ∧
    ("gkey" : String) ≠ "btok" := by
  exact ⟨rfl, by decide⟩

/-- Witness for C3: the SDK variant picks the bearer token over a present
x-goog-api-key header. -/
theorem c3_witness :
    extractApiKey (some "Bearer tok") (some "gkey") = strDropN "Bearer tok" 7 :=
  c3_amended_precedence.1 "Bearer tok" (some "gkey") (by decide)

/-- Claim C7 (amended): in the safety-check variant, an absent stream result
or absent stream field makes the handler answer a single 502 BAD_GATEWAY
with no SSE frame; in the try/catch variant this holds when the upstream
call throws, but a returned result whose stream field is absent yields a 200
response whose stream errors without emitting any SSE data frame. -/
theorem c7_amended_bad_gateway :
    (∀ sr : Option (Option (List Json)), sr = none ∨ sr = some none →
       safetyVariantStreamBranch sr = createJsonErrorResponse safetyCheckMsg 502 "BAD_GATEWAY") ∧
    (∀ e : String, tryCatchVariantStreamBranch (.error e) =
       createJsonErrorResponse ("Failed to call Google API: " ++ e) 502 "BAD_GATEWAY") ∧
    tryCatchVariantStreamBranch (.ok none) = .streamResponse 200 [.errored] ∧
    countDataFrames [.errored] = 0 := by
  refine ⟨?_, fun e => rfl, rfl, rfl⟩
  rintro sr (rfl | rfl) <;> rfl

/-- Counterexample for C7 as stated: in the try/catch variant an upstream
result without a stream field produces a 200 errored-stream response, not a
502 error. -/
theorem c7_counterexample :
    tryCatchVariantStreamBranch (.ok none) = .streamResponse 200 [.errored] ∧
    (tryCatchVariantStreamBranch (.ok none)).statusCode = 200 ∧
    (200 : Nat) ≠ 502 := ⟨rfl, rfl, by decide⟩

/-- Witness for C7: the safety-check variant answers 502 BAD_GATEWAY when the
stream field is absent. -/
theorem c7_witness :
    safetyVariantStreamBranch (some none) =
      createJsonErrorResponse safetyCheckMsg 502 "BAD_GATEWAY" :=
  c7_amended_bad_gateway.1 (some none) (Or.inr rfl)

/-- Claim C8: the OpenAI-compatibility mapping sends gpt-4 to
gemini-1.5-pro, converts a single user turn `hi` to
`[role user, parts [text hi]]`, falls back to the default gemini-pro for
unrecognized model names, and maps role user to user and every other role to
model, message by message. -/
theorem c8_openai_mapping :
    resolveGeminiModel "gpt-4" = "gemini-1.5-pro" ∧
    convertMessagesToGemini [⟨"user", "hi"⟩] = [⟨"user", [⟨"hi"⟩]⟩] ∧
    (∀ m : String, lookupOpenAIModel m = none → resolveGeminiModel m = "gemini-pro") ∧
    (∀ (msg : ChatMessage) (rest : List ChatMessage),
       convertMessagesToGemini (msg :: rest) =
         ⟨if msg.role = "user" then "user" else "model", [⟨msg.content⟩]⟩ ::
           convertMessagesToGemini rest) := by
  refine ⟨by decide, by decide, ?_, ?_⟩
  · intro m h; simp [resolveGeminiModel, h]
  · intro msg rest; simp [convertMessagesToGemini]

/-- Witness for C8: a non-user role is mapped to model, and an unknown model
name falls back to the default. -/
theorem c8_witness :
    convertMessagesToGemini [⟨"system", "s"⟩] = [⟨"model", [⟨"s"⟩]⟩] ∧
    resolveGeminiModel "gpt-5" = "gemini-pro" := by
  constructor
  · rw [c8_openai_mapping.2.2.2 ⟨"system", "s"⟩ []]; decide
  · exact c8_openai_mapping.2.2.1 "gpt-5" (by decide)

/-- Helper: an error envelope always satisfies the envelope shape test at its
own code. -/
theorem envelope_matches (c : Nat) (m t : String) :
    isErrorEnvelopeB c (errorEnvelope c m t) = true := by
  simp [isErrorEnvelopeB, errorEnvelope]

/-- Helper: every result of the main handler is the 204 preflight, an error
envelope response with a non-200 status, a 200 stream, or a 200 JSON body. -/
theorem mainHandler_resultShape (up : GenUpstream) (req : MainRequest) :
    mainHandler up req = .noContent 204 ∨
    (∃ m c t, c ≠ 200 ∧ mainHandler up req = createJsonErrorResponse m c t) ∨
    (∃ evs, mainHandler up req = .streamResponse 200 evs) ∨
    (∃ b, mainHandler up req = .jsonResponse 200 b) := by
  unfold mainHandler
  repeat' split
  all_goals first
    | exact Or.inl rfl
    | exact Or.inr (Or.inl ⟨_, _, _, by decide, rfl⟩)
    | exact Or.inr (Or.inr (Or.inl ⟨_, rfl⟩))
    | exact Or.inr (Or.inr (Or.inr ⟨_, rfl⟩))

/-- Claim C4 (amended): every non-200 JSON response of the SDK-variant
handler is an error envelope whose numeric code field equals the HTTP
status; the generic-proxy variant instead answers authentication failures
with a flat object whose error field is a string. -/
theorem c4_amended_error_envelope :
    (∀ (up : GenUpstream) (req : MainRequest) (s : Nat) (b : Json),
       mainHandler up req = .jsonResponse s b → s ≠ 200 → isErrorEnvelopeB s b = true) ∧
    (∀ (cfg : ProxyConfig) (req : ProxyRequest) (i : Nat),
       cfg.authKey.getD "" ≠ "" → cfg.apiKeys ≠ [] → extractClientKey req = "" →
       proxyHandlerRelay cfg req i =
         .respond 401 (.obj [("error", .str "认证失败：未提供API密钥"),
           ("hint", .str "请在 x-goog-api-key 或 Authorization header 中提供密钥")])) := by
  constructor
  · intro up req s b h hne
    rcases mainHandler_resultShape up req with h0 | ⟨m, c, t, hc, h0⟩ | ⟨evs, h0⟩ | ⟨bb, h0⟩ <;>
      rw [h0] at h
    · exact absurd h (by simp)
    · unfold createJsonErrorResponse at h
      injection h with h1 h2
      subst h1; subst h2
      exact envelope_matches _ m t
    · exact absurd h (by simp)
    · injection h with h1 h2
      exact absurd h1.symm hne
  · intro cfg req i h1 h2 h3
    simp [proxyHandlerRelay, h1, h2, h3]

/-- Counterexample for C4 as stated: the generic-proxy variant's 401 response
for a missing credential is a flat object with a string error field and a
hint field, not the `error.code/message/status` envelope. -/
theorem c4_counterexample :
    proxyHandlerRelay ⟨some "gate", ["k1"]⟩
      { method := "POST", pathname := "/v1/models/m:generateContent"
      , headers := [], queryParams := [], bodyBytes := [] } 0 =
      .respond 401 (.obj [("error", .str "认证失败：未提供API密钥"),
        ("hint", .str "请在 x-goog-api-key 或 Authorization header 中提供密钥")]) ∧
    isErrorEnvelopeB 401
      (.obj [("error", .str "认证失败：未提供API密钥"),
        ("hint", .str "请在 x-goog-api-key 或 Authorization header 中提供密钥")]) = false := by
  exact ⟨rfl, rfl⟩

/-- Witness for C4: the 404 envelope produced by a concrete unmatched POST
satisfies the envelope shape test at status 404. -/
theorem c4_witness :
    isErrorEnvelopeB 404 (errorEnvelope 404 "Endpoint not found." "NOT_FOUND") = true :=
  c4_amended_error_envelope.1 trivialUpstream
    { method := "GET", pathname := "/x", authorization := none, xGoogApiKey := none
    , body := .ok .null } 404 (errorEnvelope 404 "Endpoint not found." "NOT_FOUND")
    rfl (by decide)

/-- Helper: deleting every `key` query parameter leaves nothing that a filter
for `key` can find. -/
theorem deleteParam_filter_key (ps : List (String × String)) (n : String) :
    ((deleteParam ps n).filter (fun p => p.fst == n)) = [] := by
  have hb1 : ∀ p : String × String, ((p.fst == n) && (p.fst != n)) = false := by
    intro p; cases h : p.fst == n <;> simp [bne, h]
  have hb2 : ∀ p : String × String, ((p.fst != n) && (p.fst == n)) = false := by
    intro p; cases h : p.fst == n <;> simp [bne, h]
  simp only [deleteParam, List.filter_filter, hb1, hb2, List.filter_false]

/-- Claim C10: whenever the generic multi-key proxy forwards a request
upstream, the outbound `key` query parameter is exactly the pool element at
the drawn index (hence always a member of the configured pool), every
forwarded header is on the allow-list with its inbound value, and in
particular the client credential is never forwarded: the outbound request
carries no Authorization, x-goog-api-key or x-api-key header, and the
inbound `key` parameter has been deleted and replaced. -/
theorem c10_forward_invariant (cfg : ProxyConfig) (req : ProxyRequest) (i : Nat)
    (h1 : cfg.authKey.getD "" ≠ "")
    (h2 : cfg.apiKeys ≠ [])
    (h3 : extractClientKey req = cfg.authKey.getD "")
    (h4 : extractClientKey req ≠ "") :
    ∃ out : OutboundRequest,
      proxyHandlerRelay cfg req i = .forward out ∧
      (out.params.filter (fun p => p.fst == "key")).map (fun p => p.snd) =
        [cfg.apiKeys.getD (i % cfg.apiKeys.length) ""] ∧
      cfg.apiKeys.getD (i % cfg.apiKeys.length) "" ∈ cfg.apiKeys ∧
      (∀ p ∈ out.headers, p.fst ∈ headersToForward ∧ headerGet req.headers p.fst = some p.snd) ∧
      (∀ v, ("Authorization", v) ∉ out.headers ∧ ("x-goog-api-key", v) ∉ out.headers ∧
            ("x-api-key", v) ∉ out.headers) := by
  have hlen : 0 < cfg.apiKeys.length := List.length_pos.mpr h2
  have hmod : i % cfg.apiKeys.length < cfg.apiKeys.length := Nat.mod_lt _ hlen
  have hmem : cfg.apiKeys.getD (i % cfg.apiKeys.length) "" ∈ cfg.apiKeys := by
    simp only [List.getD_eq_getElem?_getD, List.getElem?_eq_getElem hmod, Option.getD_some]
    exact List.getElem_mem _
  have hheaders : ∀ p ∈ buildForwardHeaders req.headers,
      p.fst ∈ headersToForward ∧ headerGet req.headers p.fst = some p.snd := by
    intro p hp
    rw [buildForwardHeaders, List.mem_filterMap] at hp
    obtain ⟨a, ha, hfa⟩ := hp
    rw [Option.map_eq_some'] at hfa
    obtain ⟨v, hv, rfl⟩ := hfa
    exact ⟨ha, hv⟩
  have hstep : proxyHandlerRelay cfg req i = .forward
      { method := req.method, path := req.pathname
      , params := deleteParam req.queryParams "key" ++
          [("key", cfg.apiKeys.getD (i % cfg.apiKeys.length) "")]
      , headers := buildForwardHeaders req.headers
      , bodyBytes := if req.method ≠ "GET" ∧ req.method ≠ "HEAD"
                     then some req.bodyBytes else none } := by
    simp [proxyHandlerRelay, h1, h2, h4, h3]
  refine ⟨_, hstep, ?_, hmem, hheaders, ?_⟩
  · rw [List.filter_append, deleteParam_filter_key]
    simp
  · intro v
    refine ⟨fun hmemh => ?_, fun hmemh => ?_, fun hmemh => ?_⟩ <;>
      · have := (hheaders _ hmemh).1
        simp [headersToForward] at this

/-- Witness for C10: a concrete authenticated request against a two-key pool
with draw index 5 forwards the pool key k2 and only allow-listed headers. -/
theorem c10_witness :
    ∃ out : OutboundRequest,
      proxyHandlerRelay ⟨some "gate", ["k1", "k2"]⟩
        { method := "POST", pathname := "/v1/models/m:generateContent"
        , headers := [("x-goog-api-key", "gate"), ("Content-Type", "application/json")]
        , queryParams := [("key", "gate")], bodyBytes := [1, 2] } 5 = .forward out ∧
      (out.params.filter (fun p => p.fst == "key")).map (fun p => p.snd) =
        [(["k1", "k2"] : List String).getD (5 % 2) ""] ∧
      (["k1", "k2"] : List String).getD (5 % 2) "" ∈ (["k1", "k2"] : List String) ∧
      (∀ p ∈ out.headers, p.fst ∈ headersToForward ∧
        headerGet [("x-goog-api-key", "gate"), ("Content-Type", "application/json")] p.fst =
          some p.snd) ∧
      (∀ v, ("Authorization", v) ∉ out.headers ∧ ("x-goog-api-key", v) ∉ out.headers ∧
            ("x-api-key", v) ∉ out.headers) :=
  c10_forward_invariant ⟨some "gate", ["k1", "k2"]⟩
    { method := "POST", pathname := "/v1/models/m:generateContent"
    , headers := [("x-goog-api-key", "gate"), ("Content-Type", "application/json")]
    , queryParams := [("key", "gate")], bodyBytes := [1, 2] } 5
    (by decide) (by decide) (by rfl) (by decide)
